import Mathlib

/-!
Verification development for the libcaca++ dithering and canvas layer.

The reviewed repository material is a header-only C++ facade (`caca++.h`):
every method forwards to the underlying C engine, whose implementation is
not part of the source tree.  The definitions below are therefore shallow
embeddings modelled from the specification document and from the documented
contracts in the header's doc comments, component by component: the canvas
cell grid and its transformations, the pixel unpacker, the tone adjuster,
the quantizer/ditherer (nearest-colour search, ordered matrices,
Floyd-Steinberg error diffusion) and the cell writer.
-/

/-- Modelled from the spec: the canvas store (§6), a grid of character
cells, each holding a glyph (UTF-32 code point as a natural number) and an
attribute word.  The engine's `caca_canvas_t` is not in the source tree;
rows are stored top to bottom, cells left to right. -/
structure CacaCanvas where
  rows : List (List (ℕ × ℕ))
deriving DecidableEq

/-- Modelled from the spec: the horizontal-mirror glyph substitution used by
`Canvas::Flip` ("choosing characters that look like the mirrored version
wherever possible"); the engine's substitution table is not in the source
tree, so a representative involutive table of mirror pairs is used. -/
def flipChar (c : ℕ) : ℕ :=
  if c = 40 then 41 else if c = 41 then 40
  else if c = 60 then 62 else if c = 62 then 60
  else if c = 91 then 93 else if c = 93 then 91
  else if c = 47 then 92 else if c = 92 then 47
  else c

/-- Modelled from the spec: the vertical-mirror glyph substitution used by
`Canvas::Flop`; the engine's table is not in the source tree, so a
representative involutive table of mirror pairs is used. -/
def flopChar (c : ℕ) : ℕ :=
  if c = 47 then 92 else if c = 92 then 47
  else if c = 98 then 112 else if c = 112 then 98
  else if c = 100 then 113 else if c = 113 then 100
  else if c = 119 then 109 else if c = 109 then 119
  else c

/-- Modelled from the spec: the 180-degree glyph substitution used by
`Canvas::Rotate180`; the engine's table is not in the source tree, so a
representative involutive table of upside-down pairs is used. -/
def rotChar (c : ℕ) : ℕ :=
  if c = 98 then 113 else if c = 113 then 98
  else if c = 100 then 112 else if c = 112 then 100
  else if c = 117 then 110 else if c = 110 then 117
  else if c = 54 then 57 else if c = 57 then 54
  else c

/-- Glyph substitution applied to a cell, leaving the attribute intact. -/
def flipCell (c : ℕ × ℕ) : ℕ × ℕ := (flipChar c.1, c.2)

/-- Glyph substitution applied to a cell, leaving the attribute intact. -/
def flopCell (c : ℕ × ℕ) : ℕ × ℕ := (flopChar c.1, c.2)

/-- Glyph substitution applied to a cell, leaving the attribute intact. -/
def rotCell (c : ℕ × ℕ) : ℕ × ℕ := (rotChar c.1, c.2)

/-- Modelled from the spec: `Canvas::Flip`, a horizontal mirror of the cell
grid with look-alike glyph substitution.  The engine implementation
(`caca_flip`) is not in the source tree. -/
def Flip (cv : CacaCanvas) : CacaCanvas :=
  ⟨cv.rows.map (fun r => (r.map flipCell).reverse)⟩

/-- Modelled from the spec: `Canvas::Flop`, a vertical mirror of the cell
grid with look-alike glyph substitution.  The engine implementation
(`caca_flop`) is not in the source tree. -/
def Flop (cv : CacaCanvas) : CacaCanvas :=
  ⟨(cv.rows.map (fun r => r.map flopCell)).reverse⟩

/-- Modelled from the spec: `Canvas::Rotate180`, a 180-degree rotation of
the cell grid with look-alike glyph substitution.  The engine
implementation (`caca_rotate_180`) is not in the source tree. -/
def Rotate180 (cv : CacaCanvas) : CacaCanvas :=
  ⟨((cv.rows.map (fun r => (r.map rotCell).reverse))).reverse⟩

/-- Modelled from the spec: `Canvas::getChar` — "If the coordinates are
outside the canvas boundaries, a space (0x20) is returned."  The engine
implementation (`caca_get_char`) is not in the source tree. -/
def getChar (cv : CacaCanvas) (x y : ℤ) : ℕ :=
  if 0 ≤ y ∧ y.toNat < cv.rows.length ∧ 0 ≤ x ∧
      x.toNat < (cv.rows.getD y.toNat []).length then
    ((cv.rows.getD y.toNat []).getD x.toNat (32, 0)).1
  else 32

lemma flipChar_of_ne (c : ℕ) (h1 : c ≠ 40) (h2 : c ≠ 41) (h3 : c ≠ 60)
    (h4 : c ≠ 62) (h5 : c ≠ 91) (h6 : c ≠ 93) (h7 : c ≠ 47) (h8 : c ≠ 92) :
    flipChar c = c := by
  unfold flipChar
  split_ifs <;> omega

lemma flipChar_invol (c : ℕ) : flipChar (flipChar c) = c := by
  rcases eq_or_ne c 40 with h | h1; · subst h; decide
  rcases eq_or_ne c 41 with h | h2; · subst h; decide
  rcases eq_or_ne c 60 with h | h3; · subst h; decide
  rcases eq_or_ne c 62 with h | h4; · subst h; decide
  rcases eq_or_ne c 91 with h | h5; · subst h; decide
  rcases eq_or_ne c 93 with h | h6; · subst h; decide
  rcases eq_or_ne c 47 with h | h7; · subst h; decide
  rcases eq_or_ne c 92 with h | h8; · subst h; decide
  rw [flipChar_of_ne c h1 h2 h3 h4 h5 h6 h7 h8,
      flipChar_of_ne c h1 h2 h3 h4 h5 h6 h7 h8]

lemma flopChar_of_ne (c : ℕ) (h1 : c ≠ 47) (h2 : c ≠ 92) (h3 : c ≠ 98)
    (h4 : c ≠ 112) (h5 : c ≠ 100) (h6 : c ≠ 113) (h7 : c ≠ 119) (h8 : c ≠ 109) :
    flopChar c = c := by
  unfold flopChar
  split_ifs <;> omega

lemma flopChar_invol (c : ℕ) : flopChar (flopChar c) = c := by
  rcases eq_or_ne c 47 with h | h1; · subst h; decide
  rcases eq_or_ne c 92 with h | h2; · subst h; decide
  rcases eq_or_ne c 98 with h | h3; · subst h; decide
  rcases eq_or_ne c 112 with h | h4; · subst h; decide
  rcases eq_or_ne c 100 with h | h5; · subst h; decide
  rcases eq_or_ne c 113 with h | h6; · subst h; decide
  rcases eq_or_ne c 119 with h | h7; · subst h; decide
  rcases eq_or_ne c 109 with h | h8; · subst h; decide
  rw [flopChar_of_ne c h1 h2 h3 h4 h5 h6 h7 h8,
      flopChar_of_ne c h1 h2 h3 h4 h5 h6 h7 h8]

lemma rotChar_of_ne (c : ℕ) (h1 : c ≠ 98) (h2 : c ≠ 113) (h3 : c ≠ 100)
    (h4 : c ≠ 112) (h5 : c ≠ 117) (h6 : c ≠ 110) (h7 : c ≠ 54) (h8 : c ≠ 57) :
    rotChar c = c := by
  unfold rotChar
  split_ifs <;> omega

lemma rotChar_invol (c : ℕ) : rotChar (rotChar c) = c := by
  rcases eq_or_ne c 98 with h | h1; · subst h; decide
  rcases eq_or_ne c 113 with h | h2; · subst h; decide
  rcases eq_or_ne c 100 with h | h3; · subst h; decide
  rcases eq_or_ne c 112 with h | h4; · subst h; decide
  rcases eq_or_ne c 117 with h | h5; · subst h; decide
  rcases eq_or_ne c 110 with h | h6; · subst h; decide
  rcases eq_or_ne c 54 with h | h7; · subst h; decide
  rcases eq_or_ne c 57 with h | h8; · subst h; decide
  rw [rotChar_of_ne c h1 h2 h3 h4 h5 h6 h7 h8,
      rotChar_of_ne c h1 h2 h3 h4 h5 h6 h7 h8]

lemma flipCell_invol (c : ℕ × ℕ) : flipCell (flipCell c) = c := by
  simp [flipCell, flipChar_invol]

lemma flopCell_invol (c : ℕ × ℕ) : flopCell (flopCell c) = c := by
  simp [flopCell, flopChar_invol]

lemma rotCell_invol (c : ℕ × ℕ) : rotCell (rotCell c) = c := by
  simp [rotCell, rotChar_invol]

lemma flip_row_invol (r : List (ℕ × ℕ)) :
    (((r.map flipCell).reverse).map flipCell).reverse = r := by
  rw [List.map_reverse, List.reverse_reverse, List.map_map]
  have h : flipCell ∘ flipCell = id := funext flipCell_invol
  rw [h, List.map_id]

lemma rot_row_invol (r : List (ℕ × ℕ)) :
    (((r.map rotCell).reverse).map rotCell).reverse = r := by
  rw [List.map_reverse, List.reverse_reverse, List.map_map]
  have h : rotCell ∘ rotCell = id := funext rotCell_invol
  rw [h, List.map_id]

lemma Flip_Flip (cv : CacaCanvas) : Flip (Flip cv) = cv := by
  cases cv with
  | mk rows =>
    simp only [Flip, List.map_map, CacaCanvas.mk.injEq]
    have h : ((fun r : List (ℕ × ℕ) => (r.map flipCell).reverse) ∘
        fun r : List (ℕ × ℕ) => (r.map flipCell).reverse) = id := by
      funext r
      exact flip_row_invol r
    rw [h, List.map_id]

lemma Flop_Flop (cv : CacaCanvas) : Flop (Flop cv) = cv := by
  cases cv with
  | mk rows =>
    simp only [Flop, CacaCanvas.mk.injEq, List.map_reverse, List.reverse_reverse,
      List.map_map]
    have h : ((fun r : List (ℕ × ℕ) => r.map flopCell) ∘
        fun r : List (ℕ × ℕ) => r.map flopCell) = id := by
      funext r
      rw [Function.comp_apply, List.map_map]
      have h2 : flopCell ∘ flopCell = id := funext flopCell_invol
      rw [h2, List.map_id]
      rfl
    rw [h, List.map_id]

lemma Rotate180_Rotate180 (cv : CacaCanvas) : Rotate180 (Rotate180 cv) = cv := by
  cases cv with
  | mk rows =>
    simp only [Rotate180, CacaCanvas.mk.injEq, List.map_reverse,
      List.reverse_reverse, List.map_map]
    have h : ((fun r : List (ℕ × ℕ) => (r.map rotCell).reverse) ∘
        fun r : List (ℕ × ℕ) => (r.map rotCell).reverse) = id := by
      funext r
      exact rot_row_invol r
    rw [h, List.map_id]

/-- C9: each of the canvas transformations Flip (horizontal mirror), Flop
(vertical mirror) and Rotate180 is involutive: applying the same
transformation twice restores the original canvas contents exactly, even
though some individual characters are replaced by look-alike glyphs on the
first application. -/
theorem flip_flop_rotate180_involutive (cv : CacaCanvas) :
    Flip (Flip cv) = cv ∧ Flop (Flop cv) = cv ∧ Rotate180 (Rotate180 cv) = cv
      ∧ flipChar 40 ≠ 40 ∧ flopChar 98 ≠ 98 ∧ rotChar 98 ≠ 98 :=
  ⟨Flip_Flip cv, Flop_Flop cv, Rotate180_Rotate180 cv,
    by decide, by decide, by decide⟩

/-- C10: for every canvas and every coordinate outside the canvas
boundaries, `getChar` totally succeeds and returns the space character
0x20 = 32; it never errors or clamps (the model is a total pure function,
so the canvas is trivially left unchanged). -/
theorem getChar_out_of_bounds (cv : CacaCanvas) (x y : ℤ)
    (h : x < 0 ∨ y < 0 ∨ (cv.rows.length : ℤ) ≤ y ∨
      ((cv.rows.getD y.toNat []).length : ℤ) ≤ x) :
    getChar cv x y = 32 := by
  unfold getChar
  split_ifs with h1
  · exfalso
    obtain ⟨hy0, hy, hx0, hx⟩ := h1
    omega
  · rfl

/-- Witness for C10 at a concrete canvas and a concrete out-of-bounds
coordinate. -/
theorem getChar_out_of_bounds_witness :
    getChar ⟨[[(65, 0), (66, 0)]]⟩ (-1) 0 = 32 :=
  getChar_out_of_bounds ⟨[[(65, 0), (66, 0)]]⟩ (-1) 0 (Or.inl (by decide))

/-- Modelled from the spec: the typed error kinds of the dither engine
(§7); the engine's own error reporting is not in the source tree. -/
inductive DError where
  | InvalidConfig : DError
  | OutOfBounds : DError
  | UnsupportedMode : DError
deriving DecidableEq

/-- Modelled from the spec: the `DitherConfig` record (§3) describing the
source bitmap layout, channel masks, 8bpp palette and tone parameters.
The engine's `caca_dither` structure is not in the source tree.  Palette
components are raw values in `[0, 4095]`; `brightness` and `contrast`
are the linear tone parameters (the gamma pass is modelled separately,
over the reals, as `toneAdjust`). -/
structure DitherCfg where
  bpp : ℕ
  w : ℕ
  h : ℕ
  pitch : ℕ
  rmask : ℕ
  gmask : ℕ
  bmask : ℕ
  amask : ℕ
  palette : List (ℕ × ℕ × ℕ × ℕ)
  brightness : ℚ
  contrast : ℚ

/-- Fuelled count of trailing zero bits of a natural number (64 bits of
fuel covers every pixel word the engine reads). -/
def tzAux : ℕ → ℕ → ℕ
  | 0, _ => 0
  | fuel + 1, m => if m = 0 ∨ m % 2 = 1 then 0 else tzAux fuel (m / 2) + 1

/-- Trailing zeros of a channel mask. -/
def trailingZeros (m : ℕ) : ℕ := tzAux 64 m

/-- Modelled from the spec: channel extraction of the Pixel Unpacker
(§4.1) — `(word & mask) >> trailing_zeros(mask)`, normalized by the
mask's bit-width (for a contiguous mask the shifted mask is exactly the
maximal channel value). -/
def channelOfMask (word mask : ℕ) : ℚ :=
  if mask = 0 then 0
  else if mask >>> trailingZeros mask = 0 then 0
  else (((word &&& mask) >>> trailingZeros mask : ℕ) : ℚ)
    / ((mask >>> trailingZeros mask : ℕ) : ℚ)

/-- Little-endian word read of `n` bytes at offset `off`. -/
def readWordLE (bytes : ℕ → ℕ) (off n : ℕ) : ℕ :=
  (List.range n).foldl (fun acc i => acc + bytes (off + i) * 256 ^ i) 0

/-- Scale a raw palette entry (components in `[0, 4095]`) to `[0,1]^4`. -/
def scalePalEntry (e : ℕ × ℕ × ℕ × ℕ) : ℚ × ℚ × ℚ × ℚ :=
  ((e.1 : ℚ) / 4095, (e.2.1 : ℚ) / 4095, (e.2.2.1 : ℚ) / 4095, (e.2.2.2 : ℚ) / 4095)

/-- Modelled from the spec: the Pixel Unpacker's in-range sampling (§4.1).
For `bpp == 8` the byte at `row*pitch + px` is a palette index, looked up
and scaled by `1/4095`, with the channel masks ignored; for other depths
`ceil(bpp/8)` bytes are read little-endian and each channel extracted by
its mask, `alpha` being fixed at 1 when `alphaMask == 0`.  The engine
implementation (`get_rgba_default`) is not in the source tree. -/
def rawSample (cfg : DitherCfg) (bytes : ℕ → ℕ) (px py : ℕ) : ℚ × ℚ × ℚ × ℚ :=
  if cfg.bpp = 8 then
    scalePalEntry (cfg.palette.getD (bytes (py * cfg.pitch + px)) (0, 0, 0, 0))
  else
    (channelOfMask
      (readWordLE bytes (py * cfg.pitch + px * ((cfg.bpp + 7) / 8))
        ((cfg.bpp + 7) / 8)) cfg.rmask,
     channelOfMask
      (readWordLE bytes (py * cfg.pitch + px * ((cfg.bpp + 7) / 8))
        ((cfg.bpp + 7) / 8)) cfg.gmask,
     channelOfMask
      (readWordLE bytes (py * cfg.pitch + px * ((cfg.bpp + 7) / 8))
        ((cfg.bpp + 7) / 8)) cfg.bmask,
     if cfg.amask = 0 then 1
     else
       channelOfMask
        (readWordLE bytes (py * cfg.pitch + px * ((cfg.bpp + 7) / 8))
          ((cfg.bpp + 7) / 8)) cfg.amask)

/-- Modelled from the spec: the Pixel Unpacker's entry point (§4.1) —
out-of-range `(px, py)` is a programming error reported synchronously as
`OutOfBounds`, never silently clamped.  The engine implementation is not
in the source tree. -/
def unpackPixel (cfg : DitherCfg) (bytes : ℕ → ℕ) (px py : ℤ) :
    Except DError (ℚ × ℚ × ℚ × ℚ) :=
  if 0 ≤ px ∧ px < (cfg.w : ℤ) ∧ 0 ≤ py ∧ py < (cfg.h : ℤ) then
    Except.ok (rawSample cfg bytes px.toNat py.toNat)
  else Except.error DError.OutOfBounds

/-- C7: for every pixel coordinate with `px < 0`, `px >= width`, `py < 0`
or `py >= height` of the declared source bitmap, the Pixel Unpacker fails
with the typed error `OutOfBounds`, detected synchronously at call time;
the coordinate is never clamped into range. -/
theorem unpackPixel_out_of_bounds (cfg : DitherCfg) (bytes : ℕ → ℕ) (px py : ℤ)
    (h : px < 0 ∨ (cfg.w : ℤ) ≤ px ∨ py < 0 ∨ (cfg.h : ℤ) ≤ py) :
    unpackPixel cfg bytes px py = Except.error DError.OutOfBounds := by
  unfold unpackPixel
  split_ifs with h1
  · exfalso
    obtain ⟨a, b, c, d⟩ := h1
    omega
  · rfl

/-- Witness for C7 at a concrete configuration and concrete out-of-range
coordinates. -/
theorem unpackPixel_out_of_bounds_witness :
    unpackPixel
      { bpp := 32, w := 2, h := 2, pitch := 8, rmask := 0xff0000,
        gmask := 0xff00, bmask := 0xff, amask := 0, palette := [],
        brightness := 0, contrast := 1 }
      (fun _ => 0) 2 0 = Except.error DError.OutOfBounds :=
  unpackPixel_out_of_bounds _ (fun _ => 0) 2 0 (by right; left; decide)

/-- C5: for every source bitmap with `bitsPerPixel > 8` and
`alphaMask == 0`, the Pixel Unpacker produces alpha fixed at 1 for every
in-range pixel; and when `bitsPerPixel == 8` the channel masks are
ignored and the sample is the palette entry at the pixel's byte index
scaled by `1/4095`. -/
theorem unpackPixel_alpha_and_palette (cfg : DitherCfg) (bytes : ℕ → ℕ)
    (px py : ℤ)
    (hin : 0 ≤ px ∧ px < (cfg.w : ℤ) ∧ 0 ≤ py ∧ py < (cfg.h : ℤ)) :
    (8 < cfg.bpp → cfg.amask = 0 →
      ∃ r g b, unpackPixel cfg bytes px py = Except.ok (r, g, b, 1))
    ∧ (cfg.bpp = 8 → ∀ m1 m2 m3 m4,
      unpackPixel { cfg with rmask := m1, gmask := m2, bmask := m3, amask := m4 }
          bytes px py
        = Except.ok (scalePalEntry
            (cfg.palette.getD (bytes (py.toNat * cfg.pitch + px.toNat))
              (0, 0, 0, 0)))) := by
  constructor
  · intro hbpp ha
    have hne : cfg.bpp ≠ 8 := by omega
    unfold unpackPixel
    rw [if_pos hin]
    unfold rawSample
    rw [if_neg hne]
    simp only [ha, if_pos rfl]
    exact ⟨_, _, _, rfl⟩
  · intro h8 m1 m2 m3 m4
    unfold unpackPixel
    rw [if_pos hin]
    unfold rawSample
    simp [h8]

/-- Witness for C5 at a concrete 32bpp configuration with a zero alpha
mask and a concrete in-range pixel. -/
theorem unpackPixel_alpha_and_palette_witness :
    ∃ r g b,
      unpackPixel
        { bpp := 32, w := 2, h := 2, pitch := 8, rmask := 0xff0000,
          gmask := 0xff00, bmask := 0xff, amask := 0, palette := [],
          brightness := 0, contrast := 1 }
        (fun _ => 7) 0 0 = Except.ok (r, g, b, 1) :=
  (unpackPixel_alpha_and_palette
    { bpp := 32, w := 2, h := 2, pitch := 8, rmask := 0xff0000,
      gmask := 0xff00, bmask := 0xff, amask := 0, palette := [],
      brightness := 0, contrast := 1 }
    (fun _ => 7) 0 0 (by refine ⟨by decide, by decide, by decide, by decide⟩)).1
    (by decide) rfl

/-- Squared Euclidean distance between two RGB triples. -/
def dist2 (s p : ℚ × ℚ × ℚ) : ℚ :=
  (s.1 - p.1) ^ 2 + (s.2.1 - p.2.1) ^ 2 + (s.2.2 - p.2.2) ^ 2

/-- Modelled from the spec: the quantizer's nearest-colour search (§4.3,
algorithm `None`): scan palette indices `0, 1, ...` keeping the current
best, replacing it only on a strict improvement of the squared Euclidean
distance, so ties are broken by the lowest palette index.  The engine
implementation is not in the source tree. -/
def nearestIdx (n : ℕ) (pal : ℕ → ℚ × ℚ × ℚ) (s : ℚ × ℚ × ℚ) : ℕ :=
  (List.range n).foldl
    (fun best i => if dist2 s (pal i) < dist2 s (pal best) then i else best) 0

/-- Modelled from the spec: the engine's `NearestPaletteIndex` over the
full 256-entry palette of an 8bpp source. -/
def NearestPaletteIndex (pal : ℕ → ℚ × ℚ × ℚ) (s : ℚ × ℚ × ℚ) : ℕ :=
  nearestIdx 256 pal s

/-- The specification's reference behaviour, stated from the spec's words:
the returned index of an exhaustive linear search over an `n`-entry
palette minimizing Euclidean distance in RGB space, with ties broken by
the lowest palette index. -/
def IsNearestBruteForce (n : ℕ) (pal : ℕ → ℚ × ℚ × ℚ) (s : ℚ × ℚ × ℚ)
    (i : ℕ) : Prop :=
  i < n ∧ (∀ j, j < n → dist2 s (pal i) ≤ dist2 s (pal j)) ∧
    ∀ j, j < i → dist2 s (pal i) < dist2 s (pal j)

lemma nearestIdx_succ (m : ℕ) (pal : ℕ → ℚ × ℚ × ℚ) (s : ℚ × ℚ × ℚ) :
    nearestIdx (m + 1) pal s =
      if dist2 s (pal m) < dist2 s (pal (nearestIdx m pal s)) then m
      else nearestIdx m pal s := by
  unfold nearestIdx
  rw [List.range_succ, List.foldl_append, List.foldl_cons, List.foldl_nil]

lemma nearestIdx_isNearest (n : ℕ) (hn : 0 < n) (pal : ℕ → ℚ × ℚ × ℚ)
    (s : ℚ × ℚ × ℚ) : IsNearestBruteForce n pal s (nearestIdx n pal s) := by
  induction n with
  | zero => omega
  | succ m ih =>
    rcases Nat.eq_zero_or_pos m with hm | hm
    · subst hm
      have h1 : nearestIdx 1 pal s = 0 := by
        unfold nearestIdx
        rw [List.range_succ, List.range_zero, List.nil_append,
          List.foldl_cons, List.foldl_nil, ite_self]
      rw [h1]
      refine ⟨by omega, ?_, by omega⟩
      intro j hj
      interval_cases j
      exact le_refl _
    · obtain ⟨hlt, hmin, htie⟩ := ih hm
      rw [nearestIdx_succ]
      split_ifs with himp
      · refine ⟨by omega, ?_, ?_⟩
        · intro j hj
          rcases Nat.lt_succ_iff_lt_or_eq.mp hj with hj' | hj'
          · exact le_of_lt (lt_of_lt_of_le himp (hmin j hj'))
          · subst hj'
            exact le_refl _
        · intro j hj
          exact lt_of_lt_of_le himp (hmin j (by omega))
      · refine ⟨by omega, ?_, htie⟩
        intro j hj
        rcases Nat.lt_succ_iff_lt_or_eq.mp hj with hj' | hj'
        · exact hmin j hj'
        · subst hj'
          exact not_lt.mp himp

/-- C2: for every sample, the engine's `NearestPaletteIndex` returns the
same index as an exhaustive linear search over the 256-entry palette
minimizing Euclidean distance in RGB space, with ties broken by the
lowest palette index. -/
theorem NearestPaletteIndex_refines_linear_search (pal : ℕ → ℚ × ℚ × ℚ)
    (s : ℚ × ℚ × ℚ) :
    IsNearestBruteForce 256 pal s (NearestPaletteIndex pal s) :=
  nearestIdx_isNearest 256 (by norm_num) pal s

/-- Clamp a real channel value to the unit interval. -/
noncomputable def clamp01 (x : ℝ) : ℝ := max 0 (min 1 x)

/-- Sign of a real number, as used by the spec's gamma formula. -/
noncomputable def rsign (x : ℝ) : ℝ := if x < 0 then -1 else if x = 0 then 0 else 1

/-- Modelled from the spec: the Tone Adjuster's brightness/contrast pass
(§4.2), per channel `c`: `clamp01((c + brightness - 0.5) * contrast + 0.5)`.
The engine implementation is not in the source tree. -/
noncomputable def bcPass (br ct c : ℝ) : ℝ := clamp01 ((c + br - 1 / 2) * ct + 1 / 2)

/-- Modelled from the spec: the Tone Adjuster's gamma pass (§4.2):
`sign(x) * |x| ^ (1/|gamma|)` when `gamma != 0`, inverted to
`1 - ...` when `gamma < 0`, and a no-op when `gamma == 0` (treated as
`gamma == 1`).  The engine implementation is not in the source tree. -/
noncomputable def gammaPass (g x : ℝ) : ℝ :=
  if g = 0 then x
  else if g < 0 then 1 - rsign x * |x| ^ (1 / |g|)
  else rsign x * |x| ^ (1 / |g|)

/-- Modelled from the spec: the full Tone Adjuster (§4.2), brightness and
contrast applied before the gamma pass. -/
noncomputable def toneAdjust (br ct g c : ℝ) : ℝ :=
  gammaPass g (bcPass br ct c)

lemma rsign_mul_abs (x : ℝ) : rsign x * |x| = x := by
  unfold rsign
  split_ifs with h1 h2
  · rw [abs_of_neg h1]
    ring
  · subst h2
    simp
  · rw [abs_of_nonneg (not_lt.mp h1), one_mul]

lemma gammaPass_one (x : ℝ) : gammaPass 1 x = x := by
  unfold gammaPass
  norm_num
  exact rsign_mul_abs x

/-- C4: for every channel value `c`, the Tone Adjuster first applies
brightness and contrast as `clamp01((c + brightness - 0.5) * contrast +
0.5)` and then the gamma pass `sign * |.| ^ (1/|gamma|)` (never the other
way around); `gamma == 0` behaves exactly as `gamma == 1` (no-op), and a
negative gamma produces the colour-inverted value of the corresponding
positive gamma. -/
theorem toneAdjust_gamma_contract (br ct g c : ℝ) :
    toneAdjust br ct g c = gammaPass g (clamp01 ((c + br - 1 / 2) * ct + 1 / 2))
    ∧ toneAdjust br ct 0 c = toneAdjust br ct 1 c
    ∧ (g < 0 → toneAdjust br ct g c = 1 - toneAdjust br ct (-g) c) := by
  refine ⟨rfl, ?_, ?_⟩
  · unfold toneAdjust
    rw [gammaPass_one]
    unfold gammaPass
    rw [if_pos rfl]
  · intro hg
    unfold toneAdjust gammaPass
    have h1 : g ≠ 0 := ne_of_lt hg
    have h2 : -g ≠ 0 := by simpa using h1
    have h3 : ¬(-g < 0) := by simp [le_of_lt hg]
    rw [if_neg h1, if_pos hg, if_neg h2, if_neg h3, abs_neg]

/-- Witness for C4's gamma-inversion clause at concrete parameters
`brightness = 0`, `contrast = 1`, `gamma = -1`, `c = 3/4`. -/
theorem toneAdjust_gamma_contract_witness :
    toneAdjust 0 1 (-1) (3 / 4) = 1 - toneAdjust 0 1 1 (3 / 4) := by
  have h := (toneAdjust_gamma_contract 0 1 (-1) (3 / 4)).2.2 (by norm_num)
  norm_num at h
  exact h

/-- Modelled from the spec: the Floyd-Steinberg neighbour offsets and
weights (§4.3) — right `7/16`, lower-left `3/16`, lower `5/16`,
lower-right `1/16`.  The engine implementation is not in the source
tree. -/
def fsWeights : List (ℤ × ℤ × ℚ) :=
  [(1, 0, 7 / 16), (-1, 1, 3 / 16), (0, 1, 5 / 16), (1, 1, 1 / 16)]

/-- State of the Floyd-Steinberg pass: pending diffused error per pixel,
quantized outputs so far (latest first), and the running totals of
injected, in-range diffused, and edge-truncated error. -/
structure FSState where
  err : ℤ → ℤ → ℚ
  out : List ℚ
  injected : ℚ
  diffused : ℚ
  truncated : ℚ

/-- Initial Floyd-Steinberg state: no pending error, no totals. -/
def fsInit : FSState := ⟨fun _ _ => 0, [], 0, 0, 0⟩

/-- One neighbour share: add `amt` to the pending error at `(tx, ty)` and
to the diffused total when the target lies inside the grid, otherwise to
the truncated total (truncation at row/column edges). -/
def fsSpread1 (w h : ℕ) (tx ty : ℤ) (amt : ℚ) (s : FSState) : FSState :=
  if 0 ≤ tx ∧ tx < (w : ℤ) ∧ ty < (h : ℤ) then
    { s with
      err := fun a b => if a = tx ∧ b = ty then s.err a b + amt else s.err a b,
      diffused := s.diffused + amt }
  else { s with truncated := s.truncated + amt }

/-- Modelled from the spec: propagation of one pixel's quantization error
`e` to the four Floyd-Steinberg neighbours with their weights. -/
def fsSpread (w h : ℕ) (x y : ℤ) (e : ℚ) (st : FSState) : FSState :=
  fsWeights.foldl
    (fun s d => fsSpread1 w h (x + d.1) (y + d.2.1) (d.2.2 * e) s) st

/-- Modelled from the spec: one Floyd-Steinberg pixel step — add the
pending diffused error to the input sample, quantize, record the signed
quantization error as injected, and spread it to the neighbours. -/
def fsPixel (quant : ℚ → ℚ) (input : ℤ → ℤ → ℚ) (w h : ℕ)
    (st : FSState) (p : ℤ × ℤ) : FSState :=
  fsSpread w h p.1 p.2
    (input p.1 p.2 + st.err p.1 p.2 - quant (input p.1 p.2 + st.err p.1 p.2))
    { st with
      injected := st.injected
        + (input p.1 p.2 + st.err p.1 p.2
          - quant (input p.1 p.2 + st.err p.1 p.2)),
      out := quant (input p.1 p.2 + st.err p.1 p.2) :: st.out }

/-- Raster order: left-to-right within a row, rows top-to-bottom. -/
def rasterOrder (w h : ℕ) : List (ℤ × ℤ) :=
  (List.range h).flatMap fun y => (List.range w).map fun x => ((x : ℤ), (y : ℤ))

/-- Modelled from the spec: the whole Floyd-Steinberg quantization pass
over a `w × h` grid, processing pixels in raster order.  The engine
implementation is not in the source tree. -/
def fsRun (quant : ℚ → ℚ) (input : ℤ → ℤ → ℚ) (w h : ℕ) : FSState :=
  (rasterOrder w h).foldl (fsPixel quant input w h) fsInit

lemma fsSpread1_diffused_truncated (w h : ℕ) (tx ty : ℤ) (amt : ℚ)
    (s : FSState) :
    (fsSpread1 w h tx ty amt s).diffused + (fsSpread1 w h tx ty amt s).truncated
      = s.diffused + s.truncated + amt := by
  unfold fsSpread1
  split_ifs <;> simp <;> ring

lemma fsSpread1_injected (w h : ℕ) (tx ty : ℤ) (amt : ℚ) (s : FSState) :
    (fsSpread1 w h tx ty amt s).injected = s.injected := by
  unfold fsSpread1
  split_ifs <;> rfl

lemma fsSpread_balance (w h : ℕ) (x y : ℤ) (e : ℚ) (st : FSState) :
    (fsSpread w h x y e st).diffused + (fsSpread w h x y e st).truncated
        = st.diffused + st.truncated + e
      ∧ (fsSpread w h x y e st).injected = st.injected := by
  unfold fsSpread fsWeights
  simp only [List.foldl_cons, List.foldl_nil]
  constructor
  · rw [fsSpread1_diffused_truncated, fsSpread1_diffused_truncated,
      fsSpread1_diffused_truncated, fsSpread1_diffused_truncated]
    ring
  · rw [fsSpread1_injected, fsSpread1_injected, fsSpread1_injected,
      fsSpread1_injected]

lemma fsPixel_invariant (quant : ℚ → ℚ) (input : ℤ → ℤ → ℚ) (w h : ℕ)
    (st : FSState) (p : ℤ × ℤ)
    (hst : st.injected = st.diffused + st.truncated) :
    (fsPixel quant input w h st p).injected
      = (fsPixel quant input w h st p).diffused
        + (fsPixel quant input w h st p).truncated := by
  unfold fsPixel
  have hb := fsSpread_balance w h p.1 p.2
    (input p.1 p.2 + st.err p.1 p.2 - quant (input p.1 p.2 + st.err p.1 p.2))
    { st with
      injected := st.injected
        + (input p.1 p.2 + st.err p.1 p.2
          - quant (input p.1 p.2 + st.err p.1 p.2)),
      out := quant (input p.1 p.2 + st.err p.1 p.2) :: st.out }
  rw [hb.2, hb.1]
  simp only
  rw [hst]

lemma fsFold_invariant (quant : ℚ → ℚ) (input : ℤ → ℤ → ℚ) (w h : ℕ)
    (l : List (ℤ × ℤ)) (st : FSState)
    (hst : st.injected = st.diffused + st.truncated) :
    (l.foldl (fsPixel quant input w h) st).injected
      = (l.foldl (fsPixel quant input w h) st).diffused
        + (l.foldl (fsPixel quant input w h) st).truncated := by
  induction l generalizing st with
  | nil => exact hst
  | cons p l ih =>
    rw [List.foldl_cons]
    exact ih _ (fsPixel_invariant quant input w h st p hst)

/-- C1: the Floyd-Steinberg pass processes pixels in raster order
(`rasterOrder` enumerates left-to-right, top-to-bottom) and, at every
pixel, propagates the quantization error to the right, lower-left, lower
and lower-right neighbours with weights 7/16, 3/16, 5/16, 1/16 summing
exactly to 1, so that for every quantizer and input grid the total signed
error injected equals the total error diffused plus the part truncated at
row/column edges. -/
theorem floydSteinberg_error_conservation (quant : ℚ → ℚ)
    (input : ℤ → ℤ → ℚ) (w h : ℕ) :
    (fsRun quant input w h).injected
        = (fsRun quant input w h).diffused + (fsRun quant input w h).truncated
      ∧ fsWeights.map (fun d => d.2.2) = [7 / 16, 3 / 16, 5 / 16, 1 / 16]
      ∧ (fsWeights.map (fun d => d.2.2)).sum = 1 := by
  refine ⟨?_, by simp [fsWeights], by simp [fsWeights]; norm_num⟩
  unfold fsRun
  exact fsFold_invariant quant input w h (rasterOrder w h) fsInit
    (by norm_num [fsInit])

/-- Modelled from the spec: the closed enumeration of colour modes (§3);
the engine selects them from strings via `Dither::setColor`. -/
inductive DColorMode where
  | mono : DColorMode
  | gray : DColorMode
  | ansi8 : DColorMode
  | ansi16 : DColorMode
  | fullgray : DColorMode
  | full8 : DColorMode
  | full16 : DColorMode
deriving DecidableEq

/-- Modelled from the spec: the closed enumeration of dithering
algorithms (§3); the engine selects them from strings via
`Dither::setMode`. -/
inductive DAlgorithm where
  | nodither : DAlgorithm
  | ordered2 : DAlgorithm
  | ordered4 : DAlgorithm
  | ordered8 : DAlgorithm
  | random : DAlgorithm
  | fstein : DAlgorithm
deriving DecidableEq

/-- Evenly spaced grayscale palette with `n` levels. -/
def grayLevels (n : ℕ) : ℕ → ℚ × ℚ × ℚ := fun i =>
  ((i : ℚ) / ((n : ℚ) - 1), (i : ℚ) / ((n : ℚ) - 1), (i : ℚ) / ((n : ℚ) - 1))

/-- Modelled from the spec: the fixed ANSI 8-colour table (§6, "a fixed
mapping from 4-bit ANSI index to an RGB triple, assumed provided"):
black, red, green, yellow, blue, magenta, cyan, white. -/
def ansi8Pal : ℕ → ℚ × ℚ × ℚ := fun i =>
  if i = 0 then (0, 0, 0) else if i = 1 then (1, 0, 0)
  else if i = 2 then (0, 1, 0) else if i = 3 then (1, 1, 0)
  else if i = 4 then (0, 0, 1) else if i = 5 then (1, 0, 1)
  else if i = 6 then (0, 1, 1) else (1, 1, 1)

/-- Modelled from the spec: the fixed ANSI 16-colour table — the 8 dim
colours at half intensity followed by the 8 bright ones. -/
def ansi16Pal : ℕ → ℚ × ℚ × ℚ := fun i =>
  if i < 8 then
    ((ansi8Pal i).1 / 2, (ansi8Pal i).2.1 / 2, (ansi8Pal i).2.2 / 2)
  else ansi8Pal (i - 8)

/-- Number of representable colours of each colour mode. -/
def colorCount : DColorMode → ℕ
  | DColorMode.mono => 2
  | DColorMode.gray => 4
  | DColorMode.ansi8 => 8
  | DColorMode.ansi16 => 16
  | DColorMode.fullgray => 4
  | DColorMode.full8 => 8
  | DColorMode.full16 => 16

/-- Palette table of each colour mode. -/
def colorPal : DColorMode → ℕ → ℚ × ℚ × ℚ
  | DColorMode.mono => grayLevels 2
  | DColorMode.gray => grayLevels 4
  | DColorMode.ansi8 => ansi8Pal
  | DColorMode.ansi16 => ansi16Pal
  | DColorMode.fullgray => grayLevels 4
  | DColorMode.full8 => ansi8Pal
  | DColorMode.full16 => ansi16Pal

/-- Modelled from the spec: the recursive Bayer matrix construction; order
`k` gives the `2^k × 2^k` matrix with entries `0 .. 4^k - 1`. -/
def bayer : ℕ → ℕ → ℕ → ℕ
  | 0, _, _ => 0
  | k + 1, x, y =>
    4 * bayer k (x / 2) (y / 2)
      + (if y % 2 = 0 then if x % 2 = 0 then 0 else 2
         else if x % 2 = 0 then 3 else 1)

/-- Modelled from the spec: ordered-dithering threshold (§4.3), the Bayer
matrix entry at `(x mod N, y mod N)` scaled to `[0, 1)`. -/
def bayerT (k x y : ℕ) : ℚ := ((bayer k (x % 2 ^ k) (y % 2 ^ k) : ℕ) : ℚ) / 4 ^ k

/-- Modelled from the spec: the default Ascii glyph ramp (§4.3), dimmest
to brightest; the engine's ramp is not in the source tree, so a
representative three-glyph ramp is used: `.` (46), `o` (111), `@` (64). -/
def asciiRamp : List ℕ := [46, 111, 64]

/-- Modelled from the spec: Ascii character selection (§4.3) — luminance
buckets mapped to the fixed ramp, with bucket boundaries chosen to match
the spec's concrete scenario (§8: white takes the brightest symbol, the
dark primaries the dimmest). -/
def asciiGlyph (l : ℚ) : ℕ :=
  if l < 1 / 2 then 46 else if l < 17 / 20 then 111 else 64

/-- Arithmetic luminance of an RGB triple. -/
def lum (a : ℚ × ℚ × ℚ) : ℚ := (a.1 + a.2.1 + a.2.2) / 3

/-- Componentwise sum of RGB triples. -/
def addRGB (a b : ℚ × ℚ × ℚ) : ℚ × ℚ × ℚ :=
  (a.1 + b.1, a.2.1 + b.2.1, a.2.2 + b.2.2)

/-- Componentwise difference of RGB triples. -/
def subRGB (a b : ℚ × ℚ × ℚ) : ℚ × ℚ × ℚ :=
  (a.1 - b.1, a.2.1 - b.2.1, a.2.2 - b.2.2)

/-- Scalar multiple of an RGB triple. -/
def smulRGB (c : ℚ) (a : ℚ × ℚ × ℚ) : ℚ × ℚ × ℚ :=
  (c * a.1, c * a.2.1, c * a.2.2)

/-- Clamp a rational channel value to the unit interval. -/
def clamp01Q (x : ℚ) : ℚ := max 0 (min 1 x)

/-- Modelled from the spec: the brightness/contrast pass of the Tone
Adjuster (§4.2) as applied inside the render pipeline, over the exact
rationals.  The gamma pass is modelled separately over the reals
(`toneAdjust`); this pipeline corresponds to the default `gamma = 1`,
for which the gamma pass is the identity on the clamped channel. -/
def toneQ (cfg : DitherCfg) (ch : ℚ) : ℚ :=
  clamp01Q ((ch + cfg.brightness - 1 / 2) * cfg.contrast + 1 / 2)

/-- Modelled from the spec: the Cell Writer's single-cell store (§6) —
writes are skipped without error when the cell lies outside the canvas
(`List.set` is a no-op beyond the list length). -/
def setCell (cv : CacaCanvas) (x y : ℤ) (cell : ℕ × ℕ) : CacaCanvas :=
  if 0 ≤ x ∧ 0 ≤ y then
    ⟨cv.rows.set y.toNat ((cv.rows.getD y.toNat []).set x.toNat cell)⟩
  else cv

/-- Every palette component must lie in `[0, 4095]`. -/
def paletteValid (p : List (ℕ × ℕ × ℕ × ℕ)) : Bool :=
  p.all fun e =>
    decide (e.1 ≤ 4095 ∧ e.2.1 ≤ 4095 ∧ e.2.2.1 ≤ 4095 ∧ e.2.2.2 ≤ 4095)

/-- Modelled from the spec: configuration validation (§7) — a
non-positive depth/width/height/pitch, a zero channel mask outside 8bpp
mode, or a palette value out of `[0, 4095]` in 8bpp mode is an
`InvalidConfig`.  The engine implementation is not in the source tree. -/
def validateConfig (cfg : DitherCfg) : Option DError :=
  if cfg.bpp = 0 ∨ cfg.w = 0 ∨ cfg.h = 0 ∨ cfg.pitch = 0 then
    some DError.InvalidConfig
  else if cfg.bpp ≠ 8 ∧ (cfg.rmask = 0 ∨ cfg.gmask = 0 ∨ cfg.bmask = 0) then
    some DError.InvalidConfig
  else if cfg.bpp = 8 ∧ ¬paletteValid cfg.palette then
    some DError.InvalidConfig
  else none

/-- Floyd-Steinberg spreading at the level of destination cells, with
three error channels; shares aimed outside the `w × h` cell region are
dropped. -/
def fsSpreadCell (w h : ℕ) (c : ℕ × ℕ) (e : ℚ × ℚ × ℚ)
    (errf : (ℕ × ℕ) → ℚ × ℚ × ℚ) : (ℕ × ℕ) → ℚ × ℚ × ℚ :=
  fsWeights.foldl
    (fun f d =>
      if 0 ≤ (c.1 : ℤ) + d.1 ∧ (c.1 : ℤ) + d.1 < (w : ℤ) ∧
          (c.2 : ℤ) + d.2.1 < (h : ℤ) then
        fun q =>
          if q = (((c.1 : ℤ) + d.1).toNat, ((c.2 : ℤ) + d.2.1).toNat) then
            addRGB (f q) (smulRGB d.2.2 e)
          else f q
      else f)
    errf

/-- Modelled from the spec: one Cell Writer step (§4.3–4.4).  The source
pixel mapped to the destination cell is sampled (nearest-neighbour),
tone-adjusted, perturbed according to the selected algorithm (pending
Floyd-Steinberg error, ordered Bayer threshold, or the per-pixel random
threshold), quantized to the colour mode's palette by nearest colour, and
written as a glyph/colour cell; Floyd-Steinberg then spreads the new
quantization error.  The engine implementation is not in the source
tree. -/
def renderStep (cfg : DitherCfg) (cmode : DColorMode) (alg : DAlgorithm)
    (rng : ℕ → ℚ) (bytes : ℕ → ℕ) (x y : ℤ) (w h : ℕ)
    (st : CacaCanvas × ((ℕ × ℕ) → ℚ × ℚ × ℚ)) (c : ℕ × ℕ) :
    CacaCanvas × ((ℕ × ℕ) → ℚ × ℚ × ℚ) :=
  let s0 := rawSample cfg bytes (c.1 * cfg.w / w) (c.2 * cfg.h / h)
  let s1 := (toneQ cfg s0.1, toneQ cfg s0.2.1, toneQ cfg s0.2.2.1)
  let v := addRGB s1
    (if alg = DAlgorithm.fstein then st.2 c else (0, 0, 0))
  let t : ℚ :=
    match alg with
    | DAlgorithm.ordered2 => bayerT 1 c.1 c.2 - 1 / 2
    | DAlgorithm.ordered4 => bayerT 2 c.1 c.2 - 1 / 2
    | DAlgorithm.ordered8 => bayerT 3 c.1 c.2 - 1 / 2
    | DAlgorithm.random => rng (c.2 * w + c.1) - 1 / 2
    | _ => 0
  let vt := (v.1 + t, v.2.1 + t, v.2.2 + t)
  let idx := nearestIdx (colorCount cmode) (colorPal cmode) vt
  let cv2 := setCell st.1 (x + c.1) (y + c.2) (asciiGlyph (lum vt), idx)
  let errf2 :=
    if alg = DAlgorithm.fstein then
      fsSpreadCell w h c (subRGB v (colorPal cmode idx)) st.2
    else st.2
  (cv2, errf2)

/-- Destination cells in raster order. -/
def cellList (w h : ℕ) : List (ℕ × ℕ) :=
  (List.range h).flatMap fun cy => (List.range w).map fun cx => (cx, cy)

/-- Modelled from the spec: the Cell Writer's full pass (§4.4) over the
`w × h` destination rectangle whose upper-left corner is `(x, y)`. -/
def renderCells (cfg : DitherCfg) (cmode : DColorMode) (alg : DAlgorithm)
    (rng : ℕ → ℚ) (bytes : ℕ → ℕ) (cv : CacaCanvas) (x y : ℤ)
    (w h : ℕ) : CacaCanvas :=
  ((cellList w h).foldl (renderStep cfg cmode alg rng bytes x y w h)
    (cv, fun _ => (0, 0, 0))).1

/-- Modelled from the spec: `Dither::Bitmap` — a full render call.
Configuration validation runs before any cell write; on failure the typed
error is reported and the destination canvas is returned untouched.  The
engine implementation (`caca_dither_bitmap`) is not in the source
tree. -/
def render (cfg : DitherCfg) (cmode : DColorMode) (alg : DAlgorithm)
    (rng : ℕ → ℚ) (bytes : ℕ → ℕ) (cv : CacaCanvas) (x y : ℤ)
    (w h : ℕ) : Except DError Unit × CacaCanvas :=
  match validateConfig cfg with
  | some e => (Except.error e, cv)
  | none => (Except.ok (), renderCells cfg cmode alg rng bytes cv x y w h)

/-- C6: when configuration validation fails before any cell write begins,
a render call reports the typed error and leaves the destination canvas
completely untouched; in particular `bitsPerPixel = 0` and (in 8bpp mode)
a palette value of 5000 are both reported as `InvalidConfig`. -/
theorem render_invalid_config_untouched (cfg : DitherCfg)
    (cmode : DColorMode) (alg : DAlgorithm) (rng : ℕ → ℚ) (bytes : ℕ → ℕ)
    (cv : CacaCanvas) (x y : ℤ) (w h : ℕ) :
    (∀ e, validateConfig cfg = some e →
      render cfg cmode alg rng bytes cv x y w h = (Except.error e, cv))
    ∧ (cfg.bpp = 0 → validateConfig cfg = some DError.InvalidConfig)
    ∧ (cfg.bpp = 8 → paletteValid cfg.palette = false →
      validateConfig cfg = some DError.InvalidConfig) := by
  refine ⟨?_, ?_, ?_⟩
  · intro e he
    unfold render
    rw [he]
  · intro h0
    unfold validateConfig
    rw [if_pos (Or.inl h0)]
  · intro h8 hpal
    unfold validateConfig
    split_ifs with a b c <;> first | rfl | simp_all

/-- Witness for C6: a `bitsPerPixel = 0` configuration makes `render`
return the typed `InvalidConfig` error with the destination canvas
untouched, and an 8bpp palette containing the value 5000 is rejected as
`InvalidConfig`. -/
theorem render_invalid_config_untouched_witness :
    render
        { bpp := 0, w := 1, h := 1, pitch := 1, rmask := 1, gmask := 1,
          bmask := 1, amask := 0, palette := [], brightness := 0,
          contrast := 1 }
        DColorMode.full16 DAlgorithm.fstein (fun _ => 0) (fun _ => 0)
        ⟨[[(32, 0)]]⟩ 0 0 1 1
      = (Except.error DError.InvalidConfig, ⟨[[(32, 0)]]⟩)
    ∧ validateConfig
        { bpp := 8, w := 1, h := 1, pitch := 1, rmask := 0, gmask := 0,
          bmask := 0, amask := 0, palette := [(5000, 0, 0, 0)],
          brightness := 0, contrast := 1 }
      = some DError.InvalidConfig := by
  have h1 := render_invalid_config_untouched
    { bpp := 0, w := 1, h := 1, pitch := 1, rmask := 1, gmask := 1,
      bmask := 1, amask := 0, palette := [], brightness := 0, contrast := 1 }
    DColorMode.full16 DAlgorithm.fstein (fun _ => 0) (fun _ => 0)
    ⟨[[(32, 0)]]⟩ 0 0 1 1
  have h2 := render_invalid_config_untouched
    { bpp := 8, w := 1, h := 1, pitch := 1, rmask := 0, gmask := 0,
      bmask := 0, amask := 0, palette := [(5000, 0, 0, 0)],
      brightness := 0, contrast := 1 }
    DColorMode.full16 DAlgorithm.fstein (fun _ => 0) (fun _ => 0)
    ⟨[[(32, 0)]]⟩ 0 0 1 1
  exact ⟨h1.1 DError.InvalidConfig (h1.2.1 rfl), h2.2.2 rfl (by decide)⟩

lemma foldl_fn_congr {α β : Type} (f g : α → β → α) (l : List β) (s : α)
    (hfg : ∀ a b, f a b = g a b) : l.foldl f s = l.foldl g s := by
  induction l generalizing s with
  | nil => rfl
  | cons b l ih =>
    rw [List.foldl_cons, List.foldl_cons, hfg]
    exact ih _

lemma renderStep_rng_irrelevant (cfg : DitherCfg) (cmode : DColorMode)
    (alg : DAlgorithm) (rng1 rng2 : ℕ → ℚ) (bytes : ℕ → ℕ) (x y : ℤ)
    (w h : ℕ) (st : CacaCanvas × ((ℕ × ℕ) → ℚ × ℚ × ℚ)) (c : ℕ × ℕ)
    (halg : alg ≠ DAlgorithm.random) :
    renderStep cfg cmode alg rng1 bytes x y w h st c
      = renderStep cfg cmode alg rng2 bytes x y w h st c := by
  cases alg <;> first | rfl | exact absurd rfl halg

/-- C3: for every algorithm other than Random, rendering is
deterministic — the output does not depend on the random-threshold
stream at all, so two render calls with identical configuration and
identical input bitmap produce identical output on the destination
canvas. -/
theorem render_deterministic_for_nonrandom (cfg : DitherCfg)
    (cmode : DColorMode) (alg : DAlgorithm) (rng1 rng2 : ℕ → ℚ)
    (bytes : ℕ → ℕ) (cv : CacaCanvas) (x y : ℤ) (w h : ℕ)
    (halg : alg ≠ DAlgorithm.random) :
    render cfg cmode alg rng1 bytes cv x y w h
      = render cfg cmode alg rng2 bytes cv x y w h := by
  unfold render
  cases hv : validateConfig cfg with
  | some e => rfl
  | none =>
    unfold renderCells
    rw [foldl_fn_congr (renderStep cfg cmode alg rng1 bytes x y w h)
      (renderStep cfg cmode alg rng2 bytes x y w h) (cellList w h)
      (cv, fun _ => (0, 0, 0))
      (fun a b =>
        renderStep_rng_irrelevant cfg cmode alg rng1 rng2 bytes x y w h a b halg)]

/-- Witness for C3 at a concrete ordered-dither configuration and two
visibly different random streams. -/
theorem render_deterministic_for_nonrandom_witness :
    render
        { bpp := 32, w := 1, h := 1, pitch := 4, rmask := 0xff0000,
          gmask := 0xff00, bmask := 0xff, amask := 0, palette := [],
          brightness := 0, contrast := 1 }
        DColorMode.ansi8 DAlgorithm.ordered2 (fun _ => 0) (fun _ => 255)
        ⟨[[(32, 0)]]⟩ 0 0 1 1
      = render
        { bpp := 32, w := 1, h := 1, pitch := 4, rmask := 0xff0000,
          gmask := 0xff00, bmask := 0xff, amask := 0, palette := [],
          brightness := 0, contrast := 1 }
        DColorMode.ansi8 DAlgorithm.ordered2 (fun n => (n : ℚ) + 1 / 3)
        (fun _ => 255) ⟨[[(32, 0)]]⟩ 0 0 1 1 :=
  render_deterministic_for_nonrandom _ DColorMode.ansi8 DAlgorithm.ordered2
    (fun _ => 0) (fun n => (n : ℚ) + 1 / 3) (fun _ => 255) ⟨[[(32, 0)]]⟩
    0 0 1 1 (by decide)

/-- The spec's concrete scenario configuration (§8): a 2×2 ARGB8888
source bitmap. -/
def c8Cfg : DitherCfg :=
  { bpp := 32, w := 2, h := 2, pitch := 8, rmask := 0xff0000,
    gmask := 0xff00, bmask := 0xff, amask := 0xff000000, palette := [],
    brightness := 0, contrast := 1 }

/-- The spec's concrete scenario pixels, little-endian ARGB8888 bytes:
red, green / blue, white. -/
def c8Bytes : ℕ → ℕ := fun i =>
  [0, 0, 255, 255, 0, 255, 0, 255,
   255, 0, 0, 255, 255, 255, 255, 255].getD i 0

/-- A blank 2×2 destination canvas. -/
def c8Blank : CacaCanvas := ⟨[[(32, 0), (32, 0)], [(32, 0), (32, 0)]]⟩

lemma channelOfMask_eval (word mask sh mx v : ℕ) (hmask : mask ≠ 0)
    (hsh : trailingZeros mask = sh) (hmx : mask >>> sh = mx) (hmx0 : mx ≠ 0)
    (hv : (word &&& mask) >>> sh = v) :
    channelOfMask word mask = (v : ℚ) / (mx : ℚ) := by
  unfold channelOfMask
  rw [if_neg hmask, hsh, hmx, if_neg hmx0, hv]

lemma c8_raw00 : rawSample c8Cfg c8Bytes 0 0 = (1, 0, 0, 1) := by
  unfold rawSample
  rw [if_neg (by decide : ¬c8Cfg.bpp = 8), if_neg (by decide : ¬c8Cfg.amask = 0)]
  rw [(by decide : 0 * c8Cfg.pitch + 0 * ((c8Cfg.bpp + 7) / 8) = 0),
    (by decide : (c8Cfg.bpp + 7) / 8 = 4),
    (by decide : readWordLE c8Bytes 0 4 = 0xFFFF0000)]
  rw [channelOfMask_eval 0xFFFF0000 c8Cfg.rmask 16 255 255 (by decide)
      (by decide) (by decide) (by decide) (by decide),
    channelOfMask_eval 0xFFFF0000 c8Cfg.gmask 8 255 0 (by decide)
      (by decide) (by decide) (by decide) (by decide),
    channelOfMask_eval 0xFFFF0000 c8Cfg.bmask 0 255 0 (by decide)
      (by decide) (by decide) (by decide) (by decide),
    channelOfMask_eval 0xFFFF0000 c8Cfg.amask 24 255 255 (by decide)
      (by decide) (by decide) (by decide) (by decide)]
  norm_num

lemma c8_raw10 : rawSample c8Cfg c8Bytes 1 0 = (0, 1, 0, 1) := by
  unfold rawSample
  rw [if_neg (by decide : ¬c8Cfg.bpp = 8), if_neg (by decide : ¬c8Cfg.amask = 0)]
  rw [(by decide : 0 * c8Cfg.pitch + 1 * ((c8Cfg.bpp + 7) / 8) = 4),
    (by decide : (c8Cfg.bpp + 7) / 8 = 4),
    (by decide : readWordLE c8Bytes 4 4 = 0xFF00FF00)]
  rw [channelOfMask_eval 0xFF00FF00 c8Cfg.rmask 16 255 0 (by decide)
      (by decide) (by decide) (by decide) (by decide),
    channelOfMask_eval 0xFF00FF00 c8Cfg.gmask 8 255 255 (by decide)
      (by decide) (by decide) (by decide) (by decide),
    channelOfMask_eval 0xFF00FF00 c8Cfg.bmask 0 255 0 (by decide)
      (by decide) (by decide) (by decide) (by decide),
    channelOfMask_eval 0xFF00FF00 c8Cfg.amask 24 255 255 (by decide)
      (by decide) (by decide) (by decide) (by decide)]
  norm_num

lemma c8_raw01 : rawSample c8Cfg c8Bytes 0 1 = (0, 0, 1, 1) := by
  unfold rawSample
  rw [if_neg (by decide : ¬c8Cfg.bpp = 8), if_neg (by decide : ¬c8Cfg.amask = 0)]
  rw [(by decide : 1 * c8Cfg.pitch + 0 * ((c8Cfg.bpp + 7) / 8) = 8),
    (by decide : (c8Cfg.bpp + 7) / 8 = 4),
    (by decide : readWordLE c8Bytes 8 4 = 0xFF0000FF)]
  rw [channelOfMask_eval 0xFF0000FF c8Cfg.rmask 16 255 0 (by decide)
      (by decide) (by decide) (by decide) (by decide),
    channelOfMask_eval 0xFF0000FF c8Cfg.gmask 8 255 0 (by decide)
      (by decide) (by decide) (by decide) (by decide),
    channelOfMask_eval 0xFF0000FF c8Cfg.bmask 0 255 255 (by decide)
      (by decide) (by decide) (by decide) (by decide),
    channelOfMask_eval 0xFF0000FF c8Cfg.amask 24 255 255 (by decide)
      (by decide) (by decide) (by decide) (by decide)]
  norm_num

lemma c8_raw11 : rawSample c8Cfg c8Bytes 1 1 = (1, 1, 1, 1) := by
  unfold rawSample
  rw [if_neg (by decide : ¬c8Cfg.bpp = 8), if_neg (by decide : ¬c8Cfg.amask = 0)]
  rw [(by decide : 1 * c8Cfg.pitch + 1 * ((c8Cfg.bpp + 7) / 8) = 12),
    (by decide : (c8Cfg.bpp + 7) / 8 = 4),
    (by decide : readWordLE c8Bytes 12 4 = 0xFFFFFFFF)]
  rw [channelOfMask_eval 0xFFFFFFFF c8Cfg.rmask 16 255 255 (by decide)
      (by decide) (by decide) (by decide) (by decide),
    channelOfMask_eval 0xFFFFFFFF c8Cfg.gmask 8 255 255 (by decide)
      (by decide) (by decide) (by decide) (by decide),
    channelOfMask_eval 0xFFFFFFFF c8Cfg.bmask 0 255 255 (by decide)
      (by decide) (by decide) (by decide) (by decide),
    channelOfMask_eval 0xFFFFFFFF c8Cfg.amask 24 255 255 (by decide)
      (by decide) (by decide) (by decide) (by decide)]
  norm_num

lemma c8_tone0 : toneQ c8Cfg 0 = 0 := by
  norm_num [toneQ, clamp01Q, c8Cfg]

lemma c8_tone1 : toneQ c8Cfg 1 = 1 := by
  norm_num [toneQ, clamp01Q, c8Cfg]

lemma c8_near_red : nearestIdx 8 ansi8Pal (1, 0, 0) = 1 := by
  unfold nearestIdx
  rw [(by decide : List.range 8 = [0, 1, 2, 3, 4, 5, 6, 7])]
  norm_num [List.foldl_cons, List.foldl_nil, dist2, ansi8Pal]

lemma c8_near_green : nearestIdx 8 ansi8Pal (0, 1, 0) = 2 := by
  unfold nearestIdx
  rw [(by decide : List.range 8 = [0, 1, 2, 3, 4, 5, 6, 7])]
  norm_num [List.foldl_cons, List.foldl_nil, dist2, ansi8Pal]

lemma c8_near_blue : nearestIdx 8 ansi8Pal (0, 0, 1) = 4 := by
  unfold nearestIdx
  rw [(by decide : List.range 8 = [0, 1, 2, 3, 4, 5, 6, 7])]
  norm_num [List.foldl_cons, List.foldl_nil, dist2, ansi8Pal]

lemma c8_near_white : nearestIdx 8 ansi8Pal (1, 1, 1) = 7 := by
  unfold nearestIdx
  rw [(by decide : List.range 8 = [0, 1, 2, 3, 4, 5, 6, 7])]
  norm_num [List.foldl_cons, List.foldl_nil, dist2, ansi8Pal]


lemma c8_step1 :
    renderStep c8Cfg DColorMode.ansi8 DAlgorithm.nodither (fun _ => 0)
        c8Bytes 0 0 2 2 (c8Blank, fun _ => (0, 0, 0)) (0, 0)
      = (⟨[[(46, 1), (32, 0)], [(32, 0), (32, 0)]]⟩, fun _ => (0, 0, 0)) := by
  delta renderStep
  norm_num [c8_raw00, c8_tone0, c8_tone1, colorCount, colorPal, c8_near_red,
    addRGB, lum, asciiGlyph, setCell, c8Blank,
    (by decide : c8Cfg.w = 2), (by decide : c8Cfg.h = 2),
    (by decide : ¬(DAlgorithm.nodither = DAlgorithm.fstein)),
    -Prod.mk_zero_zero]

lemma c8_step2 :
    renderStep c8Cfg DColorMode.ansi8 DAlgorithm.nodither (fun _ => 0)
        c8Bytes 0 0 2 2
        (⟨[[(46, 1), (32, 0)], [(32, 0), (32, 0)]]⟩, fun _ => (0, 0, 0)) (1, 0)
      = (⟨[[(46, 1), (46, 2)], [(32, 0), (32, 0)]]⟩, fun _ => (0, 0, 0)) := by
  delta renderStep
  norm_num [c8_raw10, c8_tone0, c8_tone1, colorCount, colorPal, c8_near_green,
    addRGB, lum, asciiGlyph, setCell,
    (by decide : c8Cfg.w = 2), (by decide : c8Cfg.h = 2),
    (by decide : ¬(DAlgorithm.nodither = DAlgorithm.fstein)),
    -Prod.mk_zero_zero]

lemma c8_step3 :
    renderStep c8Cfg DColorMode.ansi8 DAlgorithm.nodither (fun _ => 0)
        c8Bytes 0 0 2 2
        (⟨[[(46, 1), (46, 2)], [(32, 0), (32, 0)]]⟩, fun _ => (0, 0, 0)) (0, 1)
      = (⟨[[(46, 1), (46, 2)], [(46, 4), (32, 0)]]⟩, fun _ => (0, 0, 0)) := by
  delta renderStep
  norm_num [c8_raw01, c8_tone0, c8_tone1, colorCount, colorPal, c8_near_blue,
    addRGB, lum, asciiGlyph, setCell,
    (by decide : c8Cfg.w = 2), (by decide : c8Cfg.h = 2),
    (by decide : ¬(DAlgorithm.nodither = DAlgorithm.fstein)),
    -Prod.mk_zero_zero]

lemma c8_step4 :
    renderStep c8Cfg DColorMode.ansi8 DAlgorithm.nodither (fun _ => 0)
        c8Bytes 0 0 2 2
        (⟨[[(46, 1), (46, 2)], [(46, 4), (32, 0)]]⟩, fun _ => (0, 0, 0)) (1, 1)
      = (⟨[[(46, 1), (46, 2)], [(46, 4), (64, 7)]]⟩, fun _ => (0, 0, 0)) := by
  delta renderStep
  norm_num [c8_raw11, c8_tone0, c8_tone1, colorCount, colorPal, c8_near_white,
    addRGB, lum, asciiGlyph, setCell,
    (by decide : c8Cfg.w = 2), (by decide : c8Cfg.h = 2),
    (by decide : ¬(DAlgorithm.nodither = DAlgorithm.fstein)),
    -Prod.mk_zero_zero, -Prod.mk_one_one]

/-- C8: rendering the 2×2 ARGB8888 bitmap red/green/blue/white with
`colorMode = Ansi8` and `algorithm = None` into a 2×2 destination maps
pure red to ANSI index 1, green to 2, blue to 4 and white to 7, one glyph
per cell from the default Ascii ramp — its dimmest symbol `.` (46) for
the dark primaries and its brightest symbol `@` (64) for white. -/
theorem render_ansi8_concrete_scenario :
    render c8Cfg DColorMode.ansi8 DAlgorithm.nodither (fun _ => 0) c8Bytes
        c8Blank 0 0 2 2
      = (Except.ok (), ⟨[[(46, 1), (46, 2)], [(46, 4), (64, 7)]]⟩)
    ∧ asciiRamp = [46, 111, 64] := by
  refine ⟨?_, rfl⟩
  have hv : validateConfig c8Cfg = none := by decide
  have hcl : cellList 2 2 = [(0, 0), (1, 0), (0, 1), (1, 1)] := by decide
  unfold render
  rw [hv]
  unfold renderCells
  rw [hcl, List.foldl_cons]
  rw [c8_step1, List.foldl_cons, c8_step2, List.foldl_cons, c8_step3,
    List.foldl_cons, c8_step4, List.foldl_nil]
